import Mathlib

/-!
Shallow embedding of the cirrus `update-state` and `workflow-failed` Lambda
handlers (src/cirrus/cli/components/core/config/update-state/handler.py and
src/cirrus/cli/components/tasks/config/workflow-failed/handler.py).

Python values reachable from JSON payloads are modelled by `PyVal`, Python
exceptions by `PyErr`, and the two handler modules are translated function by
function.  External collaborators (the cirruslib state store, SNS, CloudWatch
logs, the Step Functions history API, and the cirruslib `Catalog` codec) are
modelled as an explicit environment of fallible functions, and the externally
visible mutating calls performed during a handler run are collected in an
effect trace.
-/

/-- A Python value as produced by `json.loads` and passed around the handlers.
Numbers are kept as their raw token (their numeric value is never inspected by
the handlers). -/
inductive PyVal where
  | none
  | bool (b : Bool)
  | num (raw : String)
  | str (s : String)
  | list (xs : List PyVal)
  | dict (kvs : List (String × PyVal))

mutual

/-- Structural equality on Python values (the meaning of `==` between the
JSON-shaped values the handlers compare). -/
def PyVal.beq : PyVal → PyVal → Bool
  | .none, .none => true
  | .bool a, .bool b => a == b
  | .num a, .num b => a == b
  | .str a, .str b => a == b
  | .list xs, .list ys => PyVal.beqList xs ys
  | .dict xs, .dict ys => PyVal.beqKVs xs ys
  | _, _ => false

/-- Elementwise equality of Python lists. -/
def PyVal.beqList : List PyVal → List PyVal → Bool
  | [], [] => true
  | x :: xs, y :: ys => PyVal.beq x y && PyVal.beqList xs ys
  | _, _ => false

/-- Pairwise equality of dict entries. -/
def PyVal.beqKVs : List (String × PyVal) → List (String × PyVal) → Bool
  | [], [] => true
  | (k1, v1) :: xs, (k2, v2) :: ys => k1 == k2 && PyVal.beq v1 v2 && PyVal.beqKVs xs ys
  | _, _ => false

end

instance : BEq PyVal := ⟨PyVal.beq⟩

/-- The Python exception classes the handler code can raise or observe.
`externalError` stands for an arbitrary exception raised by an external
collaborator (boto3 client, state store, cirruslib). -/
inductive PyErr where
  | keyError (k : String)
  | indexError
  | typeError
  | attributeError
  | jsonDecodeError
  | raisedException
  | externalError (msg : String)
deriving DecidableEq

/-- `d.get(k)` membership test on the underlying association list.  Python
`json.loads` gives later duplicate keys precedence, so lookup scans from the
right. -/
def dictGet (kvs : List (String × PyVal)) (k : String) : Option PyVal :=
  (kvs.reverse.find? (fun kv => kv.1 == k)).map (fun kv => kv.2)

/-- Key membership in a Python dict (`k in d`). -/
def dictHas (kvs : List (String × PyVal)) (k : String) : Bool :=
  kvs.any (fun kv => kv.1 == k)

/-- Python `v.get(k, default)`: only dicts have a `get` method; every other
value raises `AttributeError`. -/
def pyGet (v : PyVal) (k : String) (dflt : PyVal) : Except PyErr PyVal :=
  match v with
  | .dict kvs => .ok ((dictGet kvs k).getD dflt)
  | _ => .error .attributeError

/-- Python subscription with a string key, `v[k]`: a dict lookup raises
`KeyError` when the key is absent; lists and strings raise `TypeError` for a
string index; other values are not subscriptable. -/
def pySubsStr (v : PyVal) (k : String) : Except PyErr PyVal :=
  match v with
  | .dict kvs =>
    match dictGet kvs k with
    | some w => .ok w
    | Option.none => .error (.keyError k)
  | _ => .error .typeError

/-- Python `v[-1]`: last element of a list (or last character of a string),
`IndexError` when empty; a dict raises `KeyError`; other values `TypeError`. -/
def pyLast (v : PyVal) : Except PyErr PyVal :=
  match v with
  | .list xs =>
    match xs.getLast? with
    | some w => .ok w
    | Option.none => .error .indexError
  | .str s =>
    match s.toList.getLast? with
    | some c => .ok (.str ⟨[c]⟩)
    | Option.none => .error .indexError
  | .dict _ => .error (.keyError "-1")
  | _ => .error .typeError

/-- Substring test on character lists (Python `needle in haystack` on
strings). -/
def listContainsSub (needle : List Char) : List Char → Bool
  | [] => needle.isEmpty
  | c :: rest => needle.isPrefixOf (c :: rest) || listContainsSub needle rest

/-- Python `s in v` for a string `s`: key membership for dicts, element
membership for lists, substring for strings; other values raise
`TypeError`. -/
def pyInStr (s : String) (v : PyVal) : Except PyErr Bool :=
  match v with
  | .dict kvs => .ok (dictHas kvs s)
  | .list xs => .ok (xs.any (fun x => x == PyVal.str s))
  | .str t => .ok (listContainsSub s.toList t.toList)
  | _ => .error .typeError

/-- Python iteration `for x in v`: list elements, dict keys, string
characters; other values raise `TypeError`. -/
def pyIter (v : PyVal) : Except PyErr (List PyVal) :=
  match v with
  | .list xs => .ok xs
  | .dict kvs => .ok (kvs.map (fun kv => PyVal.str kv.1))
  | .str s => .ok (s.toList.map (fun c => PyVal.str ⟨[c]⟩))
  | _ => .error .typeError

/-- Python `s.lstrip(chars)`: remove every leading character belonging to the
character set `chars`. -/
def lstripChars (chars : List Char) (s : String) : String :=
  ⟨s.toList.dropWhile (fun c => chars.contains c)⟩

/-- Python `s.split(sep, maxsplit=1)` for a one-character separator: split on
the first occurrence only; when the separator is absent the result is the
one-element list `[s]`. -/
def splitFirst (sep : Char) (s : String) : List String :=
  let l := s.toList
  let pre := l.takeWhile (fun c => c != sep)
  match l.dropWhile (fun c => c != sep) with
  | [] => [s]
  | _ :: rest => [⟨pre⟩, ⟨rest⟩]

/-! ### A small JSON decoder standing for `json.loads`

Fuel-indexed recursive descent over the character list.  It covers the JSON
constructs the handlers can meet (null, booleans, numbers kept as raw tokens,
strings with the common backslash escapes, arrays, objects); `\uXXXX` escapes
are not decoded.  `jsonLoads` supplies enough fuel for any input, so the fuel
never runs out on inputs the grammar accepts. -/

/-- Skip JSON whitespace. -/
def skipWs (s : List Char) : List Char :=
  s.dropWhile (fun c => c == ' ' || c == '\t' || c == '\n' || c == '\r')

/-- Decode one backslash escape inside a JSON string. -/
def escChar (c : Char) : Option Char :=
  match c with
  | '"' => some '"'
  | '\\' => some '\\'
  | '/' => some '/'
  | 'n' => some '\n'
  | 't' => some '\t'
  | 'r' => some '\r'
  | 'b' => some (Char.ofNat 8)
  | 'f' => some (Char.ofNat 12)
  | _ => Option.none

/-- Parse the body of a JSON string after the opening quote, returning the
decoded characters and the remainder after the closing quote. -/
def parseStrBody : List Char → Option (List Char × List Char)
  | [] => Option.none
  | '"' :: rest => some ([], rest)
  | '\\' :: e :: rest =>
    match escChar e with
    | some c =>
      match parseStrBody rest with
      | some (body, r) => some (c :: body, r)
      | Option.none => Option.none
    | Option.none => Option.none
  | c :: rest =>
    match parseStrBody rest with
    | some (body, r) => some (c :: body, r)
    | Option.none => Option.none

/-- One JSON digit. -/
def isDigit (c : Char) : Bool := '0' ≤ c && c ≤ '9'

/-- Parse a JSON number token (sign, integer part, optional fraction and
exponent), keeping the raw token text. -/
def parseNum (s : List Char) : Option (PyVal × List Char) :=
  let (sign, s1) :=
    match s with
    | '-' :: rest => (['-'], rest)
    | _ => (([] : List Char), s)
  let intPart := s1.takeWhile isDigit
  let s2 := s1.dropWhile isDigit
  if intPart.isEmpty then Option.none
  else
    let (frac, s3) :=
      match s2 with
      | '.' :: rest =>
        let ds := rest.takeWhile isDigit
        if ds.isEmpty then (([] : List Char), s2)
        else ('.' :: ds, rest.dropWhile isDigit)
      | _ => (([] : List Char), s2)
    let (expo, s4) :=
      match s3 with
      | 'e' :: rest =>
        match rest with
        | '-' :: ds => if (ds.takeWhile isDigit).isEmpty then (([] : List Char), s3) else ('e' :: '-' :: ds.takeWhile isDigit, ds.dropWhile isDigit)
        | '+' :: ds => if (ds.takeWhile isDigit).isEmpty then (([] : List Char), s3) else ('e' :: '+' :: ds.takeWhile isDigit, ds.dropWhile isDigit)
        | ds => if (ds.takeWhile isDigit).isEmpty then (([] : List Char), s3) else ('e' :: ds.takeWhile isDigit, ds.dropWhile isDigit)
      | 'E' :: rest =>
        match rest with
        | '-' :: ds => if (ds.takeWhile isDigit).isEmpty then (([] : List Char), s3) else ('E' :: '-' :: ds.takeWhile isDigit, ds.dropWhile isDigit)
        | '+' :: ds => if (ds.takeWhile isDigit).isEmpty then (([] : List Char), s3) else ('E' :: '+' :: ds.takeWhile isDigit, ds.dropWhile isDigit)
        | ds => if (ds.takeWhile isDigit).isEmpty then (([] : List Char), s3) else ('E' :: ds.takeWhile isDigit, ds.dropWhile isDigit)
      | _ => (([] : List Char), s3)
    some (.num ⟨sign ++ intPart ++ frac ++ expo⟩, s4)

mutual

/-- Parse one JSON value. -/
def parseVal : Nat → List Char → Option (PyVal × List Char)
  | 0, _ => Option.none
  | Nat.succ f, s =>
    match skipWs s with
    | 'n' :: 'u' :: 'l' :: 'l' :: r => some (.none, r)
    | 't' :: 'r' :: 'u' :: 'e' :: r => some (.bool true, r)
    | 'f' :: 'a' :: 'l' :: 's' :: 'e' :: r => some (.bool false, r)
    | '"' :: r =>
      match parseStrBody r with
      | some (body, r2) => some (.str ⟨body⟩, r2)
      | Option.none => Option.none
    | '[' :: r =>
      match skipWs r with
      | ']' :: r2 => some (.list [], r2)
      | r2 =>
        match parseElems f r2 with
        | some (xs, r3) => some (.list xs, r3)
        | Option.none => Option.none
    | '{' :: r =>
      match skipWs r with
      | '}' :: r2 => some (.dict [], r2)
      | r2 =>
        match parseMembers f r2 with
        | some (kvs, r3) => some (.dict kvs, r3)
        | Option.none => Option.none
    | rest => parseNum rest

/-- Parse one or more comma-separated JSON array elements up to `]`. -/
def parseElems : Nat → List Char → Option (List PyVal × List Char)
  | 0, _ => Option.none
  | Nat.succ f, s =>
    match parseVal f s with
    | some (v, r) =>
      match skipWs r with
      | ',' :: r2 =>
        match parseElems f r2 with
        | some (vs, r3) => some (v :: vs, r3)
        | Option.none => Option.none
      | ']' :: r2 => some ([v], r2)
      | _ => Option.none
    | Option.none => Option.none

/-- Parse one or more comma-separated JSON object members up to the closing
brace. -/
def parseMembers : Nat → List Char → Option (List (String × PyVal) × List Char)
  | 0, _ => Option.none
  | Nat.succ f, s =>
    match skipWs s with
    | '"' :: r =>
      match parseStrBody r with
      | some (key, r2) =>
        match skipWs r2 with
        | ':' :: r3 =>
          match parseVal f r3 with
          | some (v, r4) =>
            match skipWs r4 with
            | ',' :: r5 =>
              match parseMembers f r5 with
              | some (ms, r6) => some ((⟨key⟩, v) :: ms, r6)
              | Option.none => Option.none
            | '}' :: r5 => some ([(⟨key⟩, v)], r5)
            | _ => Option.none
          | Option.none => Option.none
        | _ => Option.none
      | Option.none => Option.none
    | _ => Option.none

end

/-- `json.loads` on a string: parse one JSON document and require that only
whitespace follows; any failure is a `JSONDecodeError` (a `ValueError`, and in
particular not a `KeyError`). -/
def jsonLoads (s : String) : Except PyErr PyVal :=
  match parseVal (2 * s.length + 2) s.toList with
  | some (v, r) => if skipWs r = [] then .ok v else .error .jsonDecodeError
  | Option.none => .error .jsonDecodeError

/-- `json.loads` applied to an arbitrary Python value: a non-string argument
raises `TypeError`. -/
def jsonLoadsVal (v : PyVal) : Except PyErr PyVal :=
  match v with
  | .str s => jsonLoads s
  | _ => .error .typeError

/-! ### Rendering Python values as text -/

mutual

/-- Python `str(v)` as used by the handlers' f-strings.  Scalars follow
Python exactly; container rendering follows Python's `repr` layout with the
simplification that quote characters inside nested strings are not escaped
(the handlers never render containers holding quote characters). -/
def pyToStr : PyVal → String
  | .none => "None"
  | .bool true => "True"
  | .bool false => "False"
  | .num r => r
  | .str s => s
  | .list xs => "[" ++ String.intercalate ", " (pyReprList xs) ++ "]"
  | .dict kvs => "\x7b" ++ String.intercalate ", " (pyReprKVs kvs) ++ "\x7d"

/-- Python `repr(v)` (used for values nested inside a rendered container). -/
def pyRepr : PyVal → String
  | .none => "None"
  | .bool true => "True"
  | .bool false => "False"
  | .num r => r
  | .str s => "'" ++ s ++ "'"
  | .list xs => "[" ++ String.intercalate ", " (pyReprList xs) ++ "]"
  | .dict kvs => "\x7b" ++ String.intercalate ", " (pyReprKVs kvs) ++ "\x7d"

/-- repr of each element of a Python list. -/
def pyReprList : List PyVal → List String
  | [] => []
  | v :: rest => pyRepr v :: pyReprList rest

/-- repr of each `key: value` entry of a Python dict. -/
def pyReprKVs : List (String × PyVal) → List String
  | [] => []
  | (k, v) :: rest => ("'" ++ k ++ "': " ++ pyRepr v) :: pyReprKVs rest

end

/-- Escaping of JSON string contents for `json.dumps`. -/
def jsonEscape (s : String) : String :=
  ⟨s.toList.foldr
    (fun c acc =>
      match c with
      | '\\' => '\\' :: '\\' :: acc
      | '"' => '\\' :: '"' :: acc
      | '\n' => '\\' :: 'n' :: acc
      | '\t' => '\\' :: 't' :: acc
      | '\r' => '\\' :: 'r' :: acc
      | c => c :: acc)
    []⟩

mutual

/-- `json.dumps` with the default separators. -/
def jsonDumps : PyVal → String
  | .none => "null"
  | .bool true => "true"
  | .bool false => "false"
  | .num r => r
  | .str s => "\"" ++ jsonEscape s ++ "\""
  | .list xs => "[" ++ String.intercalate ", " (jsonDumpsList xs) ++ "]"
  | .dict kvs => "\x7b" ++ String.intercalate ", " (jsonDumpsKVs kvs) ++ "\x7d"

/-- `json.dumps` of each element of an array. -/
def jsonDumpsList : List PyVal → List String
  | [] => []
  | v :: rest => jsonDumps v :: jsonDumpsList rest

/-- `json.dumps` of each member of an object. -/
def jsonDumpsKVs : List (String × PyVal) → List String
  | [] => []
  | (k, v) :: rest => ("\"" ++ jsonEscape k ++ "\": " ++ jsonDumps v) :: jsonDumpsKVs rest

end

/-! ### Effects, environment and the handler monad -/

/-- Externally visible mutating calls successfully performed during a handler
run: state-store transitions and SNS publications. -/
inductive Effect where
  | setCompleted (ident : PyVal)
  | setFailed (ident : PyVal) (error : String)
  | setInvalid (ident : PyVal) (error : String)
  | publish (topicArn : String) (message : String) (attrs : PyVal)
deriving BEq

/-- The external collaborators of the handlers, as fallible functions:
the cirruslib `Catalog.from_payload` codec, the Step Functions
`get_execution_history` API (execution ARN, `maxResults`, `reverseOrder`),
the CloudWatch `get_log_events` API (log group, log stream), the state-store
transitions, the composed record re-read
`statedb.dbitem_to_item(statedb.get_dbitem(id))` (the spec's
`getRecord(identity) -> StateRecord`), the SNS publish call (topic, message,
attributes), and the two optionally-configured topic ARNs. -/
structure Env where
  fromPayload : PyVal → Except PyErr PyVal
  getHistory : PyVal → Nat → Bool → Except PyErr PyVal
  getLogEvents : String → String → Except PyErr PyVal
  setCompleted : PyVal → Except PyErr Unit
  setFailed : PyVal → String → Except PyErr Unit
  setInvalid : PyVal → String → Except PyErr Unit
  getRecordItem : PyVal → Except PyErr PyVal
  publish : String → String → PyVal → Except PyErr Unit
  failedTopicArn : Option String
  invalidTopicArn : Option String

/-- Handler computations: given the effects already performed, produce a
result (or a propagating Python exception) together with the extended effect
trace.  Effects performed before an exception stay in the trace, matching
Python semantics. -/
def M (α : Type) : Type := List Effect → Except PyErr α × List Effect

/-- Sequencing of handler computations: an exception short-circuits but keeps
the trace accumulated so far. -/
def mBind {α β : Type} (x : M α) (f : α → M β) : M β := fun tr =>
  match x tr with
  | (.ok a, tr2) => f a tr2
  | (.error e, tr2) => (.error e, tr2)

instance : Monad M where
  pure a := fun tr => (.ok a, tr)
  bind := mBind

/-- Embed a pure fallible computation (no effects). -/
def mLift {α : Type} (x : Except PyErr α) : M α := fun tr => (x, tr)

/-- `statedb.set_completed(id)`, recorded in the trace when it succeeds. -/
def callSetCompleted (env : Env) (ident : PyVal) : M Unit := fun tr =>
  match env.setCompleted ident with
  | .ok _ => (.ok (), tr ++ [.setCompleted ident])
  | .error e => (.error e, tr)

/-- `statedb.set_failed(id, error)`, recorded in the trace when it
succeeds. -/
def callSetFailed (env : Env) (ident : PyVal) (err : String) : M Unit := fun tr =>
  match env.setFailed ident err with
  | .ok _ => (.ok (), tr ++ [.setFailed ident err])
  | .error e => (.error e, tr)

/-- `statedb.set_invalid(id, error)`, recorded in the trace when it
succeeds. -/
def callSetInvalid (env : Env) (ident : PyVal) (err : String) : M Unit := fun tr =>
  match env.setInvalid ident err with
  | .ok _ => (.ok (), tr ++ [.setInvalid ident err])
  | .error e => (.error e, tr)

/-- `SNS_CLIENT.publish(TopicArn=..., Message=..., MessageAttributes=...)`,
recorded in the trace when it succeeds. -/
def callPublish (env : Env) (topicArn message : String) (attrs : PyVal) : M Unit := fun tr =>
  match env.publish topicArn message attrs with
  | .ok _ => (.ok (), tr ++ [.publish topicArn message attrs])
  | .error e => (.error e, tr)

/-! ### The update-state handler
(src/cirrus/cli/components/core/config/update-state/handler.py) -/

/-- Module constant `FAILED = 'FAILED'`. -/
def FAILED : String := "FAILED"

/-- Module constant `MAX_EXECUTION_EVENTS = 10`: how many execution events to
request and check for an error cause in a FAILED state. -/
def MAX_EXECUTION_EVENTS : Nat := 10

/-- The fixed phrase signalling that a managed Batch task's essential
container exited (line 51). -/
def containerExitPhrase : String := "Essential container in task exited"

/-- The conventional exception-class prefix handed to `lstrip` (line 171).
Note `str.lstrip` treats it as a character set, not a literal prefix. -/
def cirruslibErrorsChars : List Char := "cirruslib.errors.".toList

/-- `get_error_from_batch(logname)` (lines 168-179): fetch the most recent
log event of the named stream in the fixed `/aws/batch/job` group, strip the
leading characters drawn from `'cirruslib.errors.'`, and split on the first
colon into `(error_type, msg)`; with no colon the type is `"Unknown"`; any
retrieval failure yields `("Exception", "Unable to get Error Log")`.  The
`logname` argument reaches the boto3 call as a keyword argument, so a
non-string raises inside the `try` as well.  This function never raises. -/
def get_error_from_batch (env : Env) (logname : PyVal) : String × String :=
  match (do
      let lognameStr ← match logname with
        | .str s => Except.ok s
        | _ => Except.error PyErr.typeError
      let logs ← env.getLogEvents "/aws/batch/job" lognameStr
      let events ← pySubsStr logs "events"
      let lastEvent ← pyLast events
      let message ← pySubsStr lastEvent "message"
      match message with
      | .str s => Except.ok s
      | _ => Except.error PyErr.attributeError : Except PyErr String) with
  | .error _ => ("Exception", "Unable to get Error Log")
  | .ok raw =>
    let msg := lstripChars cirruslibErrorsChars raw
    match splitFirst ':' msg with
    | [errorType, rest] => (errorType, rest)
    | _ => ("Unknown", msg)

/-- Lines 37-58 of `workflow_failed`: compute the pair
`(error_type, error_msg)` from the raw error value.  `error_type` comes from
`error.get('Error', "unknown")` (raising if `error` has no `get`, e.g. is
`None`).  The outer `try` parses `error['Cause']` as JSON and inspects
`errorMessage` / `Attempts`; the inner `try` around the Batch-log excavation
catches and logs its own failures (leaving `error_msg = 'unknown'`); the
outer `except` handles everything else with `error_msg = error['Cause']`,
which itself raises when `Cause` is absent. -/
def coreExtractError (env : Env) (error : PyVal) : Except PyErr (PyVal × PyVal) := do
  let errorType ← pyGet error "Error" (.str "unknown")
  match (do
      let causeRaw ← pySubsStr error "Cause"
      let cause ← jsonLoadsVal causeRaw
      let hasErrorMessage ← pyInStr "errorMessage" cause
      if hasErrorMessage then do
        let m ← pyGet cause "errorMessage" (.str "unknown")
        Except.ok (errorType, m)
      else do
        let hasAttempts ← pyInStr "Attempts" cause
        if hasAttempts then
          match (do
              let attempts ← pySubsStr cause "Attempts"
              let lastAttempt ← pyLast attempts
              let reason ← pySubsStr lastAttempt "StatusReason"
              let hasPhrase ← pyInStr containerExitPhrase reason
              if hasPhrase then do
                let attempts2 ← pySubsStr cause "Attempts"
                let lastAttempt2 ← pyLast attempts2
                let container ← pySubsStr lastAttempt2 "Container"
                let logname ← pySubsStr container "LogStreamName"
                Except.ok (some (get_error_from_batch env logname))
              else Except.ok Option.none : Except PyErr (Option (String × String))) with
          | .ok (some (t, m)) => Except.ok (PyVal.str t, PyVal.str m)
          | .ok Option.none => Except.ok (errorType, PyVal.str "unknown")
          | .error _ => Except.ok (errorType, PyVal.str "unknown")
        else
          Except.ok (errorType, PyVal.str "unknown") : Except PyErr (PyVal × PyVal)) with
  | .ok result => Except.ok result
  | .error _ => do
    let m ← pySubsStr error "Cause"
    Except.ok (errorType, m)

/-- Line 60: `error = f"{error_type}: {error_msg}"`. -/
def renderError (errorType errorMsg : PyVal) : String :=
  pyToStr errorType ++ ": " ++ pyToStr errorMsg

/-- The notification `MessageAttributes` dict built at lines 78-91 (and
identically at lines 54-67 of the task handler). -/
def notifAttrs (collections workflow : PyVal) (errorStr : String) : PyVal :=
  PyVal.dict
    [("collections", PyVal.dict [("DataType", PyVal.str "String"), ("StringValue", collections)]),
     ("workflow", PyVal.dict [("DataType", PyVal.str "String"), ("StringValue", workflow)]),
     ("error", PyVal.dict [("DataType", PyVal.str "String"), ("StringValue", PyVal.str errorStr)])]

/-- Lines 60-103 of `workflow_failed`: given the extracted descriptor, render
the display string, run the status transition (`set_invalid` exactly when the
type equals `"InvalidInput"`, else `set_failed`), and, when the selected topic
is configured, re-read the state record, build the notification attributes and
publish.  The two `except ... raise err` blocks log and re-raise, which is
propagation of the same exception, so they are modelled as plain
propagation. -/
def coreDispatch (env : Env) (catalog : PyVal) (errorType errorMsg : PyVal) : M PyVal := do
  let errorStr := renderError errorType errorMsg
  let topic ←
    if errorType == PyVal.str "InvalidInput" then do
      let ident ← mLift (pySubsStr catalog "id")
      callSetInvalid env ident errorStr
      pure env.invalidTopicArn
    else do
      let ident ← mLift (pySubsStr catalog "id")
      callSetFailed env ident errorStr
      pure env.failedTopicArn
  match topic with
  | Option.none => pure catalog
  | some topicArn => do
    let ident ← mLift (pySubsStr catalog "id")
    let item ← mLift (env.getRecordItem ident)
    let collections ← mLift (pySubsStr item "collections")
    let workflow ← mLift (pySubsStr item "workflow")
    callPublish env topicArn (jsonDumps item) (notifAttrs collections workflow errorStr)
    pure catalog

/-- `workflow_failed(catalog, error)` (lines 37-103): extraction followed by
dispatch; returns the catalog. -/
def coreWorkflowFailed (env : Env) (catalog : PyVal) (error : PyVal) : M PyVal := do
  let descriptor ← mLift (coreExtractError env error)
  coreDispatch env catalog descriptor.1 descriptor.2

/-- `workflow_completed(catalog, error)` (lines 33-34):
`statedb.set_completed(catalog['id'])`; the error argument is unused and the
function returns `None`. -/
def coreWorkflowCompleted (env : Env) (catalog : PyVal) (_error : PyVal) : M PyVal := do
  let ident ← mLift (pySubsStr catalog "id")
  callSetCompleted env ident
  pure PyVal.none

/-- The body of the inner `try` of `get_execution_error` (lines 120-122):
`event['stateEnteredEventDetails']`, then `json.loads(details['input'])`,
then subscription by `'error'`. -/
def extractEventError (event : PyVal) : Except PyErr PyVal := do
  let details ← pySubsStr event "stateEnteredEventDetails"
  let input ← pySubsStr details "input"
  let doc ← jsonLoadsVal input
  pySubsStr doc "error"

/-- Whether an exception is a `KeyError` (the only class the inner
`except KeyError: pass` of `get_execution_error` swallows). -/
def PyErr.isKeyError : PyErr → Bool
  | .keyError _ => true
  | _ => false

/-- The `for event in history['events']` loop of `get_execution_error`: the
first event whose extraction succeeds is returned; an event failing with
`KeyError` is skipped; any other exception propagates to the outer
handler. -/
def scanEvents : List PyVal → Except PyErr (Option PyVal)
  | [] => .ok Option.none
  | event :: rest =>
    match extractEventError event with
    | .ok v => .ok (some v)
    | .error e => if e.isKeyError then scanEvents rest else .error e

/-- `get_execution_error(arn)` (lines 112-130): request the most recent
`MAX_EXECUTION_EVENTS` history events in reverse order and scan them; any
exception escaping the scan (or the request itself) is logged and the
function falls through to the warning, returning `None`. -/
def get_execution_error (env : Env) (arn : PyVal) : PyVal :=
  match (do
      let history ← env.getHistory arn MAX_EXECUTION_EVENTS true
      let events ← pySubsStr history "events"
      let eventList ← pyIter events
      scanEvents eventList : Except PyErr (Option PyVal)) with
  | .ok (some v) => v
  | .ok Option.none => PyVal.none
  | .error _ => PyVal.none

/-- `parse_payload(payload)` (lines 137-165): classify the payload into
`(catalog, status, error)`.  A payload with an `error` field is a
workflow-failed record; a payload whose `source` is `"aws.states"` is a step
function event whose separately-encoded `input` document is decoded and whose
error, for status `FAILED`, is resolved from the execution history; anything
else (or any exception) is logged and mapped to `(None, None, None)`. -/
def parse_payload (env : Env) (payload : PyVal) : PyVal × PyVal × PyVal :=
  match (do
      let hasError ← pyInStr "error" payload
      if hasError then do
        let catalog ← env.fromPayload payload
        let err ← pyGet payload "error" (.dict [])
        Except.ok (catalog, PyVal.str FAILED, err)
      else do
        let source ← pyGet payload "source" (.str "")
        if source == PyVal.str "aws.states" then do
          let detail ← pySubsStr payload "detail"
          let status ← pySubsStr detail "status"
          let error ←
            if status == PyVal.str FAILED then do
              let detail2 ← pySubsStr payload "detail"
              let arn ← pySubsStr detail2 "executionArn"
              Except.ok (get_execution_error env arn)
            else
              Except.ok PyVal.none
          let detail3 ← pySubsStr payload "detail"
          let inputRaw ← pySubsStr detail3 "input"
          let inputDoc ← jsonLoadsVal inputRaw
          let catalog ← env.fromPayload inputDoc
          Except.ok (catalog, status, error)
        else
          Except.error PyErr.raisedException : Except PyErr (PyVal × PyVal × PyVal)) with
  | .ok t => t
  | .error _ => (PyVal.none, PyVal.none, PyVal.none)

/-- Membership of a status in `STATUS_UPDATE_MAP` (lines 106-109), whose keys
are `FAILED` (= `'FAILED'`) and `'SUCCESS'`. -/
def statusSupported (status : PyVal) : Bool :=
  status == PyVal.str FAILED || status == PyVal.str "SUCCESS"

/-- `handler(payload, context)` of the update-state module (lines 182-190):
classify, drop unsupported statuses with a log line, otherwise dispatch
through `STATUS_UPDATE_MAP`; the dispatched function's result is discarded
and the handler returns `None`. -/
def coreHandler (env : Env) (payload : PyVal) : M PyVal :=
  let parsed := parse_payload env payload
  let status := parsed.2.1
  if !statusSupported status then
    pure PyVal.none
  else if status == PyVal.str FAILED then do
    let _ ← coreWorkflowFailed env parsed.1 parsed.2.2
    pure PyVal.none
  else do
    let _ ← coreWorkflowCompleted env parsed.1 parsed.2.2
    pure PyVal.none

/-! ### The workflow-failed task handler
(src/cirrus/cli/components/tasks/config/workflow-failed/handler.py),
translated independently of the update-state module. -/

/-- Lines 24-34 of the task handler: compute `(error_type, error_msg)` from
the raw error value.  Unlike the update-state module, this extraction has no
`Attempts` / Batch-log branch: after the `errorMessage` check the message
simply stays `'unknown'`. -/
def tasksExtractError (error : PyVal) : Except PyErr (PyVal × PyVal) := do
  let errorType ← pyGet error "Error" (.str "unknown")
  match (do
      let causeRaw ← pySubsStr error "Cause"
      let cause ← jsonLoadsVal causeRaw
      let hasErrorMessage ← pyInStr "errorMessage" cause
      if hasErrorMessage then do
        let m ← pyGet cause "errorMessage" (.str "unknown")
        Except.ok (errorType, m)
      else
        Except.ok (errorType, PyVal.str "unknown") : Except PyErr (PyVal × PyVal)) with
  | .ok result => Except.ok result
  | .error _ => do
    let m ← pySubsStr error "Cause"
    Except.ok (errorType, m)

/-- Lines 36-77 of the task handler: render the display string, transition
the state record (`set_invalid` exactly for type `"InvalidInput"`, else
`set_failed`), and publish to the selected topic when configured.  The source
text of this block coincides with lines 60-101 of the update-state module. -/
def tasksDispatch (env : Env) (catalog : PyVal) (errorType errorMsg : PyVal) : M PyVal := do
  let errorStr := renderError errorType errorMsg
  let topic ←
    if errorType == PyVal.str "InvalidInput" then do
      let ident ← mLift (pySubsStr catalog "id")
      callSetInvalid env ident errorStr
      pure env.invalidTopicArn
    else do
      let ident ← mLift (pySubsStr catalog "id")
      callSetFailed env ident errorStr
      pure env.failedTopicArn
  match topic with
  | Option.none => pure catalog
  | some topicArn => do
    let ident ← mLift (pySubsStr catalog "id")
    let item ← mLift (env.getRecordItem ident)
    let collections ← mLift (pySubsStr item "collections")
    let workflow ← mLift (pySubsStr item "workflow")
    callPublish env topicArn (jsonDumps item) (notifAttrs collections workflow errorStr)
    pure catalog

/-- `handler(payload, context)` of the workflow-failed task module (lines
17-79): decode the catalog, take `payload.get('error', {})`, extract the
descriptor, dispatch, and return the catalog. -/
def tasksHandler (env : Env) (payload : PyVal) : M PyVal := do
  let catalog ← mLift (env.fromPayload payload)
  let error ← mLift (pyGet payload "error" (.dict []))
  let descriptor ← mLift (tasksExtractError error)
  tasksDispatch env catalog descriptor.1 descriptor.2

/-- Whether the update-state extraction's Batch-log excavation fires for a
raw error value: the `Cause` parses as JSON, contains no `errorMessage` key,
contains an `Attempts` key, and the last attempt's `StatusReason` contains
the container-exit phrase with a reachable `Container.LogStreamName`.  On
exactly these inputs the two entry points' extractions can differ. -/
def coreBatchFires (error : PyVal) : Bool :=
  match (do
      let causeRaw ← pySubsStr error "Cause"
      let cause ← jsonLoadsVal causeRaw
      let hasErrorMessage ← pyInStr "errorMessage" cause
      if hasErrorMessage then
        Except.ok false
      else do
        let hasAttempts ← pyInStr "Attempts" cause
        if hasAttempts then
          match (do
              let attempts ← pySubsStr cause "Attempts"
              let lastAttempt ← pyLast attempts
              let reason ← pySubsStr lastAttempt "StatusReason"
              let hasPhrase ← pyInStr containerExitPhrase reason
              if hasPhrase then do
                let attempts2 ← pySubsStr cause "Attempts"
                let lastAttempt2 ← pyLast attempts2
                let container ← pySubsStr lastAttempt2 "Container"
                let _logname ← pySubsStr container "LogStreamName"
                Except.ok true
              else Except.ok false : Except PyErr Bool) with
          | .ok b => Except.ok b
          | .error _ => Except.ok false
        else
          Except.ok false : Except PyErr Bool) with
  | .ok b => b
  | .error _ => false

/-! ### Concrete fixtures used by the verification theorems -/

/-- A state record item as returned by the record re-read. -/
def stateItem : PyVal :=
  .dict [("collections", .str "col1"), ("workflow", .str "wf1")]

/-- A well-behaved environment: the catalog codec is the identity, both
store transitions and the publish succeed, the record re-read returns
`stateItem`, both topics are configured, and the history and log APIs fail
(they are not needed by the runs using this environment). -/
def envOk : Env :=
  ⟨fun v => .ok v,
   fun _ _ _ => .error (.externalError "no history"),
   fun _ _ => .error (.externalError "no logs"),
   fun _ => .ok (),
   fun _ _ => .ok (),
   fun _ _ => .ok (),
   fun _ => .ok stateItem,
   fun _ _ _ => .ok (),
   some "arn:failed-topic",
   some "arn:invalid-topic"⟩

/-- A CloudWatch response whose single log event carries `msg`. -/
def batchLogsFor (msg : String) : PyVal :=
  .dict [("events", .list [.dict [("message", .str msg)]])]

/-- Like `envOk`, but the log API serves stream `ls1` with a
`cirruslib.errors.`-prefixed message and stream `ls2` with a message whose
class name does not carry that prefix. -/
def envLog : Env :=
  ⟨fun v => .ok v,
   fun _ _ _ => .error (.externalError "no history"),
   fun _ stream =>
     if stream == "ls1" then .ok (batchLogsFor "cirruslib.errors.BadFormat: missing header")
     else if stream == "ls2" then .ok (batchLogsFor "botocore.exceptions.ClientError: denied")
     else .error (.externalError "no such stream"),
   fun _ => .ok (),
   fun _ _ => .ok (),
   fun _ _ => .ok (),
   fun _ => .ok stateItem,
   fun _ _ _ => .ok (),
   some "arn:failed-topic",
   some "arn:invalid-topic"⟩

/-- Like `envOk`, but every state-store transition fails. -/
def envStoreDown : Env :=
  ⟨fun v => .ok v,
   fun _ _ _ => .error (.externalError "no history"),
   fun _ _ => .error (.externalError "no logs"),
   fun _ => .error (.externalError "db down"),
   fun _ _ => .error (.externalError "db down"),
   fun _ _ => .error (.externalError "db down"),
   fun _ => .ok stateItem,
   fun _ _ _ => .ok (),
   some "arn:failed-topic",
   some "arn:invalid-topic"⟩

/-- A history event without `stateEnteredEventDetails` (skipped with
`KeyError` by the scan). -/
def evSkip : PyVal := .dict [("id", .num "1")]

/-- A history event whose state-entered input embeds an `error` field. -/
def evGood : PyVal :=
  .dict [("stateEnteredEventDetails", .dict [("input", .str "\x7b\"error\": \"boom\"\x7d")])]

/-- A history event whose state-entered input fails to decode as JSON. -/
def evBad : PyVal :=
  .dict [("stateEnteredEventDetails", .dict [("input", .str "not json")])]

/-- A history response carrying the given events. -/
def histOf (evs : List PyVal) : PyVal := .dict [("events", .list evs)]

/-- Like `envOk`, but the history API returns a skippable event followed by
an event carrying an embedded error. -/
def envHistGood : Env :=
  ⟨fun v => .ok v,
   fun _ _ _ => .ok (histOf [evSkip, evGood]),
   fun _ _ => .error (.externalError "no logs"),
   fun _ => .ok (),
   fun _ _ => .ok (),
   fun _ _ => .ok (),
   fun _ => .ok stateItem,
   fun _ _ _ => .ok (),
   some "arn:failed-topic",
   some "arn:invalid-topic"⟩

/-- Like `envOk`, but the history API returns an event with an undecodable
input followed by an event carrying an embedded error. -/
def envHistBad : Env :=
  ⟨fun v => .ok v,
   fun _ _ _ => .ok (histOf [evBad, evGood]),
   fun _ _ => .error (.externalError "no logs"),
   fun _ => .ok (),
   fun _ _ => .ok (),
   fun _ _ => .ok (),
   fun _ => .ok stateItem,
   fun _ _ _ => .ok (),
   some "arn:failed-topic",
   some "arn:invalid-topic"⟩

/-- A catalog record with identity `item1`. -/
def catalogA : PyVal := .dict [("id", .str "item1")]

/-- The `Cause` of a Batch task failure: an `Attempts` array whose last
entry's `StatusReason` contains the container-exit phrase and which names log
stream `ls1`. -/
def causeC4 : String :=
  "\x7b\"Attempts\": [\x7b\"StatusReason\": \"Essential container in task exited - exit code 1\", \"Container\": \x7b\"LogStreamName\": \"ls1\"\x7d\x7d]\x7d"

/-- The parsed form of `causeC4`. -/
def causeC4Val : PyVal :=
  .dict [("Attempts", .list
    [.dict [("StatusReason", .str "Essential container in task exited - exit code 1"),
            ("Container", .dict [("LogStreamName", .str "ls1")])]])]

/-- A raw error whose `Cause` is `causeC4`. -/
def errC4 : PyVal :=
  .dict [("Error", .str "States.TaskFailed"), ("Cause", .str causeC4)]

/-- A step-function completion event: `source` is `aws.states` and the nested
status is `SUCCEEDED`. -/
def payloadSucceeded : PyVal :=
  .dict [("source", .str "aws.states"),
         ("detail", .dict [("status", .str "SUCCEEDED"),
                           ("executionArn", .str "arn:exec:1"),
                           ("input", .str "\x7b\"id\": \"wf1\"\x7d")])]

/-! ### Reduction lemmas for the handler monad -/

theorem except_bind_ok {α β : Type} (a : α) (f : α → Except PyErr β) :
    (Except.ok a >>= f) = f a := rfl

theorem except_bind_error {α β : Type} (e : PyErr) (f : α → Except PyErr β) :
    ((Except.error e : Except PyErr α) >>= f) = Except.error e := rfl

theorem bind_M {α β : Type} (x : M α) (f : α → M β) : (x >>= f) = mBind x f := rfl

theorem pure_M {α : Type} (a : α) (tr : List Effect) : (pure a : M α) tr = (.ok a, tr) := rfl

theorem mLift_apply {α : Type} (x : Except PyErr α) (tr : List Effect) :
    (mLift x : M α) tr = (x, tr) := rfl

theorem mBind_apply {α β : Type} (x : M α) (f : α → M β) (tr : List Effect) :
    mBind x f tr =
      match x tr with
      | (.ok a, tr2) => f a tr2
      | (.error e, tr2) => (.error e, tr2) := rfl

set_option maxRecDepth 100000

/-- Auxiliary: the head of `dropWhile p l`, when present, fails `p`. -/
theorem head_dropWhile_not {α : Type} (p : α → Bool) (l : List α) :
    ((l.dropWhile p).head?.all (fun c => !p c)) = true := by
  induction l with
  | nil => rfl
  | cons c cs ih =>
    by_cases hp : p c
    · simpa [List.dropWhile, hp] using ih
    · simp [List.dropWhile, hp]

/-- Auxiliary: a successful dict lookup implies key membership. -/
theorem dictHas_of_dictGet {kvs : List (String × PyVal)} {k : String} {v : PyVal}
    (h : dictGet kvs k = some v) : dictHas kvs k = true := by
  unfold dictGet at h
  unfold dictHas
  cases hf : kvs.reverse.find? (fun kv => kv.1 == k) with
  | none => rw [hf] at h; simp at h
  | some kv =>
    have hmem := List.mem_of_find?_eq_some hf
    have hpred := List.find?_some hf
    rw [List.any_eq_true]
    exact ⟨kv, List.mem_reverse.mp hmem, hpred⟩

/-- Claim C1 (code bug): extraction on the FAILED path is claimed never to
raise, degrading to `unknown: unknown`; but on an empty error object the
fallback line `error_msg = error['Cause']` itself raises `KeyError`, and on
the `None` returned by a fruitless history resolution `error.get` raises
`AttributeError` — both propagate out of `workflow_failed`, out of the
update-state `handler`, and out of the task handler.  This theorem evaluates
the model at those failing inputs. -/
theorem c1_extraction_raises :
    (coreWorkflowFailed envOk catalogA (PyVal.dict []) []).1 = .error (.keyError "Cause")
    ∧ (coreWorkflowFailed envOk catalogA PyVal.none []).1 = .error .attributeError
    ∧ coreHandler envOk (PyVal.dict [("error", PyVal.dict [])]) [] = (.error (.keyError "Cause"), [])
    ∧ (tasksHandler envOk (PyVal.dict [("type", PyVal.str "t")]) []).1 = .error (.keyError "Cause") :=
  ⟨rfl, rfl, rfl, rfl⟩

/-- Claim C2 (code bug): a step-function event carrying nested status
`SUCCEEDED` is claimed to be dispatched to the completion handler, but the
dispatch map's completion key is the string `'SUCCESS'`, so classification
yields status `SUCCEEDED`, membership fails, and the handler returns with an
empty effect trace — no `set_completed` call is made. -/
theorem c2_succeeded_event_ignored :
    coreHandler envOk payloadSucceeded [] = (.ok PyVal.none, [])
    ∧ parse_payload envOk payloadSucceeded = (.dict [("id", .str "wf1")], .str "SUCCEEDED", PyVal.none)
    ∧ statusSupported (.str "SUCCEEDED") = false
    ∧ statusSupported (.str "SUCCESS") = true :=
  ⟨rfl, rfl, rfl, rfl⟩

/-- Claim C3, counterexample: on a direct-error payload whose `Cause`
triggers the container-exit enrichment, the generic update-state extraction
consults the Batch logs and returns `(BadFormat, " missing header"-style)`
data, while the specialized task handler — which has no such branch — returns
the original error type with message `unknown`.  The two entry points'
extractions therefore differ. -/
theorem c3_entry_points_diverge :
    coreExtractError envLog errC4 = .ok (.str "BadFormat", .str " missing header")
    ∧ tasksExtractError errC4 = .ok (.str "States.TaskFailed", .str "unknown")
    ∧ coreExtractError envLog errC4 ≠ tasksExtractError errC4 := by
  refine ⟨rfl, rfl, ?_⟩
  intro h
  have h2 : (Except.ok (PyVal.str "BadFormat", PyVal.str " missing header") : Except PyErr (PyVal × PyVal))
      = Except.ok (PyVal.str "States.TaskFailed", PyVal.str "unknown") := h
  injection h2 with h3
  injection h3 with h4 h5
  injection h4 with h6
  exact absurd h6 (by decide)

/-- Claim C4, counterexample: with the Batch `Cause` of `errC4` and a log
stream whose most recent message is
`cirruslib.errors.BadFormat: missing header`, the extracted descriptor is
`("BadFormat", " missing header")` — the message keeps the space that
followed the colon, so it is not exactly `"missing header"`. -/
theorem c4_message_not_exact :
    coreExtractError envLog errC4 = .ok (.str "BadFormat", .str " missing header")
    ∧ coreExtractError envLog errC4 ≠ .ok (.str "BadFormat", .str "missing header") := by
  refine ⟨rfl, ?_⟩
  intro h
  have h2 : (Except.ok (PyVal.str "BadFormat", PyVal.str " missing header") : Except PyErr (PyVal × PyVal))
      = Except.ok (PyVal.str "BadFormat", PyVal.str "missing header") := h
  injection h2 with h3
  injection h3 with h4 h5
  injection h5 with h6
  exact absurd h6 (by decide)

/-- Claim C7, counterexample: an event whose state-entered input fails to
decode aborts the whole history scan (`json.JSONDecodeError` is not a
`KeyError`, so it escapes the inner handler), so a later event's perfectly
extractable error is never reached and the resolver returns `None`. -/
theorem c7_undecodable_aborts_scan :
    get_execution_error envHistBad (.str "arn:x") = PyVal.none
    ∧ extractEventError evGood = .ok (.str "boom")
    ∧ extractEventError evBad = .error .jsonDecodeError :=
  ⟨rfl, rfl, rfl⟩

/-- Claim C8, counterexample: a `Cause` of `'{"errorMessage":""}'` yields the
empty message, not `"unknown"` — the `dict.get` default is dead because the
membership test already passed. -/
theorem c8_empty_message_preserved :
    coreExtractError envOk (PyVal.dict [("Error", .str "E"), ("Cause", .str "\x7b\"errorMessage\":\"\"\x7d")])
      = .ok (.str "E", .str "")
    ∧ tasksExtractError (PyVal.dict [("Error", .str "E"), ("Cause", .str "\x7b\"errorMessage\":\"\"\x7d")])
      = .ok (.str "E", .str "")
    ∧ PyVal.str "" ≠ PyVal.str "unknown" := by
  refine ⟨rfl, rfl, ?_⟩
  intro h
  injection h with h2
  exact absurd h2 (by decide)

/-- Claim C10 (confirmed): the log-backed resolver's prefix removal is a
character-set strip — every leading character drawn from the characters of
`'cirruslib.errors.'` is removed (the strip result is a suffix whose dropped
part lies wholly in the set and whose head, if any, is outside the set) —
and on the message `botocore.exceptions.ClientError: denied`, which does not
begin with the literal prefix, the leading `bo` of the class name is eaten
before the colon split. -/
theorem c10_lstrip_charset :
    (∀ s : String, ∃ pre : List Char,
        s.toList = pre ++ (lstripChars cirruslibErrorsChars s).toList
        ∧ pre.all (fun c => cirruslibErrorsChars.contains c) = true
        ∧ ((lstripChars cirruslibErrorsChars s).toList.head?.all
            (fun c => !cirruslibErrorsChars.contains c)) = true)
    ∧ ("cirruslib.errors.".toList.isPrefixOf "botocore.exceptions.ClientError: denied".toList) = false
    ∧ get_error_from_batch envLog (.str "ls2") = ("tocore.exceptions.ClientError", " denied") := by
  refine ⟨?_, by decide, rfl⟩
  intro s
  refine ⟨s.toList.takeWhile (fun c => cirruslibErrorsChars.contains c), ?_, ?_, ?_⟩
  · exact (List.takeWhile_append_dropWhile _ _).symm
  · rw [List.all_eq_true]
    intro c hc
    exact List.mem_takeWhile_imp hc
  · exact head_dropWhile_not _ _

/-- Claim C5 (confirmed): in the failure dispatch, exactly when the extracted
error type equals `"InvalidInput"` the state record is transitioned via
`set_invalid` (never `set_failed`) and any notification goes to the invalid
topic; for every other type the record is transitioned via `set_failed`
(never `set_invalid`) and any notification goes to the failure topic. -/
theorem c5_invalid_input_dispatch (env : Env) (catalog : PyVal) (errorType errorMsg ident : PyVal)
    (hid : pySubsStr catalog "id" = .ok ident) :
    (((errorType == PyVal.str "InvalidInput") = true →
        (∀ i s, Effect.setFailed i s ∉ (coreDispatch env catalog errorType errorMsg []).2)
        ∧ (∀ a msg at1, Effect.publish a msg at1 ∈ (coreDispatch env catalog errorType errorMsg []).2 →
            env.invalidTopicArn = some a)
        ∧ (env.setInvalid ident (renderError errorType errorMsg) = .ok () →
            Effect.setInvalid ident (renderError errorType errorMsg)
              ∈ (coreDispatch env catalog errorType errorMsg []).2))
     ∧ ((errorType == PyVal.str "InvalidInput") = false →
        (∀ i s, Effect.setInvalid i s ∉ (coreDispatch env catalog errorType errorMsg []).2)
        ∧ (∀ a msg at1, Effect.publish a msg at1 ∈ (coreDispatch env catalog errorType errorMsg []).2 →
            env.failedTopicArn = some a)
        ∧ (env.setFailed ident (renderError errorType errorMsg) = .ok () →
            Effect.setFailed ident (renderError errorType errorMsg)
              ∈ (coreDispatch env catalog errorType errorMsg []).2))) := by
  constructor
  · intro hty
    unfold coreDispatch
    simp only [bind_M, hty, if_true, mBind_apply, mLift_apply, hid, callSetInvalid, pure_M]
    cases hsi : env.setInvalid ident (renderError errorType errorMsg) with
    | error e =>
      refine ⟨by simp, by simp, ?_⟩
      intro hok
      exact absurd hok (by simp)
    | ok u =>
      cases htop : env.invalidTopicArn with
      | none => exact ⟨by simp [pure_M], by simp [pure_M], by simp [pure_M]⟩
      | some topicArn =>
        simp only [mBind_apply, mLift_apply]
        cases hit : env.getRecordItem ident with
        | error e => exact ⟨by simp, by simp, by simp⟩
        | ok item =>
          simp only []
          cases hcol : pySubsStr item "collections" with
          | error e => exact ⟨by simp, by simp, by simp⟩
          | ok collections =>
            simp only []
            cases hwf : pySubsStr item "workflow" with
            | error e => exact ⟨by simp, by simp, by simp⟩
            | ok workflow =>
              simp only [callPublish]
              cases hpub : env.publish topicArn (jsonDumps item)
                  (notifAttrs collections workflow (renderError errorType errorMsg)) with
              | error e => exact ⟨by simp, by simp, by simp⟩
              | ok u2 =>
                refine ⟨by simp [pure_M], ?_, by simp [pure_M]⟩
                intro a msg at1 hmem
                simp [pure_M] at hmem
                obtain ⟨h1, h2, h3⟩ := hmem
                simp [h1]
  · intro hty
    unfold coreDispatch
    simp only [bind_M, hty, Bool.false_eq_true, if_false, mBind_apply, mLift_apply, hid,
      callSetFailed, pure_M]
    cases hsi : env.setFailed ident (renderError errorType errorMsg) with
    | error e =>
      refine ⟨by simp, by simp, ?_⟩
      intro hok
      exact absurd hok (by simp)
    | ok u =>
      cases htop : env.failedTopicArn with
      | none => exact ⟨by simp [pure_M], by simp [pure_M], by simp [pure_M]⟩
      | some topicArn =>
        simp only [mBind_apply, mLift_apply]
        cases hit : env.getRecordItem ident with
        | error e => exact ⟨by simp, by simp, by simp⟩
        | ok item =>
          simp only []
          cases hcol : pySubsStr item "collections" with
          | error e => exact ⟨by simp, by simp, by simp⟩
          | ok collections =>
            simp only []
            cases hwf : pySubsStr item "workflow" with
            | error e => exact ⟨by simp, by simp, by simp⟩
            | ok workflow =>
              simp only [callPublish]
              cases hpub : env.publish topicArn (jsonDumps item)
                  (notifAttrs collections workflow (renderError errorType errorMsg)) with
              | error e => exact ⟨by simp, by simp, by simp⟩
              | ok u2 =>
                refine ⟨by simp [pure_M], ?_, by simp [pure_M]⟩
                intro a msg at1 hmem
                simp [pure_M] at hmem
                obtain ⟨h1, h2, h3⟩ := hmem
                simp [h1]

/-- Witness for C5: a concrete `InvalidInput` dispatch records the
`set_invalid` transition. -/
theorem c5_invalid_input_dispatch_witness :
    Effect.setInvalid (PyVal.str "item1") "InvalidInput: nope"
      ∈ (coreDispatch envOk catalogA (PyVal.str "InvalidInput") (PyVal.str "nope") []).2 :=
  ((c5_invalid_input_dispatch envOk catalogA (PyVal.str "InvalidInput") (PyVal.str "nope")
    (PyVal.str "item1") rfl).1 rfl).2.2 rfl

/-- Claim C9 (confirmed): a failing state-store write during failure dispatch
re-raises the store error with nothing committed and no notification
published; after a successful transition, a failure of the record re-read or
of the publish re-raises that error while the committed transition stays in
the effect trace — there is no rollback. -/
theorem c9_store_and_publish_failures_reraised (env : Env) (catalog : PyVal) (errorType errorMsg ident : PyVal) (e : PyErr) :
    ((pySubsStr catalog "id" = .ok ident →
        (errorType == PyVal.str "InvalidInput") = false →
        env.setFailed ident (renderError errorType errorMsg) = .error e →
        coreDispatch env catalog errorType errorMsg [] = (.error e, []))
     ∧ (pySubsStr catalog "id" = .ok ident →
        (errorType == PyVal.str "InvalidInput") = true →
        env.setInvalid ident (renderError errorType errorMsg) = .error e →
        coreDispatch env catalog errorType errorMsg [] = (.error e, []))
     ∧ (∀ topicArn, pySubsStr catalog "id" = .ok ident →
        (errorType == PyVal.str "InvalidInput") = false →
        env.setFailed ident (renderError errorType errorMsg) = .ok () →
        env.failedTopicArn = some topicArn →
        env.getRecordItem ident = .error e →
        coreDispatch env catalog errorType errorMsg []
          = (.error e, [Effect.setFailed ident (renderError errorType errorMsg)]))
     ∧ (∀ topicArn item collections workflow, pySubsStr catalog "id" = .ok ident →
        (errorType == PyVal.str "InvalidInput") = false →
        env.setFailed ident (renderError errorType errorMsg) = .ok () →
        env.failedTopicArn = some topicArn →
        env.getRecordItem ident = .ok item →
        pySubsStr item "collections" = .ok collections →
        pySubsStr item "workflow" = .ok workflow →
        env.publish topicArn (jsonDumps item)
            (notifAttrs collections workflow (renderError errorType errorMsg)) = .error e →
        coreDispatch env catalog errorType errorMsg []
          = (.error e, [Effect.setFailed ident (renderError errorType errorMsg)]))) := by
  refine ⟨?_, ?_, ?_, ?_⟩
  · intro hid hty hsf
    unfold coreDispatch
    simp only [bind_M, hty, Bool.false_eq_true, if_false, mBind_apply, mLift_apply, hid,
      callSetFailed, hsf, pure_M]
  · intro hid hty hsi
    unfold coreDispatch
    simp only [bind_M, hty, if_true, mBind_apply, mLift_apply, hid, callSetInvalid, hsi, pure_M]
  · intro topicArn hid hty hsf htop hit
    unfold coreDispatch
    simp only [bind_M, hty, Bool.false_eq_true, if_false, mBind_apply, mLift_apply, hid,
      callSetFailed, hsf, htop, hit, pure_M, List.nil_append]
  · intro topicArn item collections workflow hid hty hsf htop hit hcol hwf hpub
    unfold coreDispatch
    simp only [bind_M, hty, Bool.false_eq_true, if_false, mBind_apply, mLift_apply, hid,
      callSetFailed, hsf, htop, hit, hcol, hwf, callPublish, hpub, pure_M, List.nil_append]

/-- Witness for C9: with a store whose transitions fail, a concrete dispatch
re-raises the store error with an empty effect trace. -/
theorem c9_store_and_publish_failures_reraised_witness :
    coreDispatch envStoreDown catalogA (PyVal.str "SomeError") (PyVal.str "m") []
      = (.error (.externalError "db down"), []) :=
  (c9_store_and_publish_failures_reraised envStoreDown catalogA (PyVal.str "SomeError")
    (PyVal.str "m") (PyVal.str "item1") (.externalError "db down")).1 rfl rfl rfl

/-- Claim C6 (confirmed): a payload without an `error` field whose `source`
is not `"aws.states"` is classified as a drop: the handler returns `None`
with an empty effect trace — no state-store transition and no
notification. -/
theorem c6_malformed_payload_dropped (env : Env) (kvs : List (String × PyVal))
    (he : dictHas kvs "error" = false)
    (hs : (((dictGet kvs "source").getD (PyVal.str "")) == PyVal.str "aws.states") = false) :
    coreHandler env (PyVal.dict kvs) [] = (.ok PyVal.none, []) := by
  unfold coreHandler parse_payload
  simp only [pyInStr, pyGet, he, hs, except_bind_ok, except_bind_error, Bool.false_eq_true,
    if_false, statusSupported]
  rfl

/-- Witness for C6: a concrete unrecognizable payload is dropped without
effects. -/
theorem c6_malformed_payload_dropped_witness :
    coreHandler envOk (PyVal.dict [("foo", PyVal.str "bar")]) [] = (.ok PyVal.none, []) :=
  c6_malformed_payload_dropped envOk [("foo", PyVal.str "bar")] rfl rfl

/-- `pyIter` on a Python list yields its elements. -/
theorem pyIter_list (xs : List PyVal) : pyIter (.list xs) = .ok xs := rfl

/-- Auxiliary: a scan over events that all fail with `KeyError` finds
nothing. -/
theorem scanEvents_all_key (events : List PyVal)
    (h : ∀ ev ∈ events, ∃ k, extractEventError ev = .error (.keyError k)) :
    scanEvents events = .ok Option.none := by
  induction events with
  | nil => rfl
  | cons ev rest ih =>
    obtain ⟨k, hk⟩ := h ev (List.mem_cons_self ev rest)
    unfold scanEvents
    rw [hk]
    simp only [PyErr.isKeyError, if_true]
    exact ih (fun x hx => h x (List.mem_cons_of_mem _ hx))

/-- Auxiliary: the scan returns the first extractable embedded error, past
any prefix of events failing with `KeyError`. -/
theorem scanEvents_found (pre : List PyVal) (ev : PyVal) (rest : List PyVal) (v : PyVal)
    (hpre : ∀ x ∈ pre, ∃ k, extractEventError x = .error (.keyError k))
    (hev : extractEventError ev = .ok v) :
    scanEvents (pre ++ ev :: rest) = .ok (some v) := by
  induction pre with
  | nil =>
    rw [List.nil_append]
    unfold scanEvents
    rw [hev]
  | cons x xs ih =>
    obtain ⟨k, hk⟩ := hpre x (List.mem_cons_self x xs)
    rw [List.cons_append]
    unfold scanEvents
    rw [hk]
    simp only [PyErr.isKeyError, if_true]
    exact ih (fun y hy => hpre y (List.mem_cons_of_mem _ hy))

/-- Auxiliary: a non-`KeyError` failure aborts the scan, regardless of the
events that follow. -/
theorem scanEvents_abort (pre : List PyVal) (ev : PyVal) (rest : List PyVal) (err : PyErr)
    (hpre : ∀ x ∈ pre, ∃ k, extractEventError x = .error (.keyError k))
    (hev : extractEventError ev = .error err) (hne : err.isKeyError = false) :
    scanEvents (pre ++ ev :: rest) = .error err := by
  induction pre with
  | nil =>
    rw [List.nil_append]
    unfold scanEvents
    rw [hev]
    simp only [hne]
    simp
  | cons x xs ih =>
    obtain ⟨k, hk⟩ := hpre x (List.mem_cons_self x xs)
    rw [List.cons_append]
    unfold scanEvents
    rw [hk]
    simp only [PyErr.isKeyError, if_true]
    exact ih (fun y hy => hpre y (List.mem_cons_of_mem _ hy))

/-- Claim C7 as amended: the resolver's behaviour is a function of one
history request with the configured bound `MAX_EXECUTION_EVENTS` (10) in
reverse order; a request failure yields none; events whose state-entered
details, input, or embedded `error` key are missing are skipped with
`KeyError` and the first successful extraction is returned; but an event
whose input fails to decode (any non-`KeyError` failure) aborts the whole
scan and yields none. -/
theorem c7_amended_scan_semantics :
    (∀ env arn e, env.getHistory arn MAX_EXECUTION_EVENTS true = .error e →
        get_execution_error env arn = PyVal.none)
    ∧ (∀ env arn hist events,
        env.getHistory arn MAX_EXECUTION_EVENTS true = .ok hist →
        pySubsStr hist "events" = .ok (.list events) →
        ((∀ ev ∈ events, ∃ k, extractEventError ev = .error (.keyError k)) →
            get_execution_error env arn = PyVal.none)
        ∧ (∀ pre ev rest v, events = pre ++ ev :: rest →
            (∀ x ∈ pre, ∃ k, extractEventError x = .error (.keyError k)) →
            extractEventError ev = .ok v →
            get_execution_error env arn = v)
        ∧ (∀ pre ev rest err, events = pre ++ ev :: rest →
            (∀ x ∈ pre, ∃ k, extractEventError x = .error (.keyError k)) →
            extractEventError ev = .error err → err.isKeyError = false →
            get_execution_error env arn = PyVal.none))
    ∧ (∀ env env2 arn,
        env.getHistory arn MAX_EXECUTION_EVENTS true = env2.getHistory arn MAX_EXECUTION_EVENTS true →
        get_execution_error env arn = get_execution_error env2 arn) := by
  refine ⟨?_, ?_, ?_⟩
  · intro env arn e h
    unfold get_execution_error
    rw [h]
    rfl
  · intro env arn hist events hh he
    refine ⟨?_, ?_, ?_⟩
    · intro hall
      unfold get_execution_error
      rw [hh]
      simp only [except_bind_ok, he, pyIter_list, scanEvents_all_key events hall]
    · intro pre ev rest v hsplit hpre hev
      unfold get_execution_error
      rw [hh]
      simp only [except_bind_ok, he, pyIter_list, hsplit,
        scanEvents_found pre ev rest v hpre hev]
    · intro pre ev rest err hsplit hpre hev hne
      unfold get_execution_error
      rw [hh]
      simp only [except_bind_ok, he, pyIter_list, hsplit,
        scanEvents_abort pre ev rest err hpre hev hne]
  · intro env env2 arn h
    unfold get_execution_error
    rw [h]

/-- Witness for the amended C7: with a history of one skippable event
followed by one carrying an embedded error, the resolver returns that
error. -/
theorem c7_amended_scan_semantics_witness :
    get_execution_error envHistGood (.str "arn:x") = PyVal.str "boom" :=
  (c7_amended_scan_semantics.2.1 envHistGood (.str "arn:x") (histOf [evSkip, evGood])
      [evSkip, evGood] rfl rfl).2.1 [evSkip] evGood [] (.str "boom") rfl
    (fun x hx => by
      rw [List.mem_singleton] at hx
      subst hx
      exact ⟨"stateEnteredEventDetails", rfl⟩)
    rfl

/-- `v.get` on a dict returns the stored value or the default. -/
theorem pyGet_dict (kvs : List (String × PyVal)) (k : String) (d : PyVal) :
    pyGet (.dict kvs) k d = .ok ((dictGet kvs k).getD d) := rfl

/-- `s in d` on a dict is key membership. -/
theorem pyInStr_dict (s : String) (kvs : List (String × PyVal)) :
    pyInStr s (.dict kvs) = .ok (dictHas kvs s) := rfl

/-- `json.loads` on a string value. -/
theorem jsonLoadsVal_str (s : String) : jsonLoadsVal (.str s) = jsonLoads s := rfl

/-- Claim C8 as amended: when the `Cause` parses to a document that contains
an `errorMessage` field, the extracted message equals that field's value
verbatim — including the empty string, which is preserved rather than
defaulted to `"unknown"`; the `"unknown"` default applies only when the
field is absent.  This holds in both entry points. -/
theorem c8_amended_message_verbatim (env : Env) (error : PyVal) (causeRaw : String)
    (kvs : List (String × PyVal)) (v errorType : PyVal)
    (hc : pySubsStr error "Cause" = .ok (.str causeRaw))
    (hp : jsonLoads causeRaw = .ok (.dict kvs))
    (hm : dictGet kvs "errorMessage" = some v)
    (ht : pyGet error "Error" (.str "unknown") = .ok errorType) :
    coreExtractError env error = .ok (errorType, v)
    ∧ tasksExtractError error = .ok (errorType, v) := by
  have hhas : dictHas kvs "errorMessage" = true := dictHas_of_dictGet hm
  constructor
  · unfold coreExtractError
    simp only [ht, hc, except_bind_ok, jsonLoadsVal_str, hp, pyInStr_dict, hhas, if_true,
      pyGet_dict, hm, Option.getD]
  · unfold tasksExtractError
    simp only [ht, hc, except_bind_ok, jsonLoadsVal_str, hp, pyInStr_dict, hhas, if_true,
      pyGet_dict, hm, Option.getD]

/-- Witness for the amended C8: a `Cause` of `'{"errorMessage":"disk full"}'`
extracts the message `disk full` in both entry points. -/
theorem c8_amended_message_verbatim_witness :
    coreExtractError envOk
        (PyVal.dict [("Error", .str "E"), ("Cause", .str "\x7b\"errorMessage\":\"disk full\"\x7d")])
      = .ok (.str "E", .str "disk full")
    ∧ tasksExtractError
        (PyVal.dict [("Error", .str "E"), ("Cause", .str "\x7b\"errorMessage\":\"disk full\"\x7d")])
      = .ok (.str "E", .str "disk full") :=
  c8_amended_message_verbatim envOk
    (PyVal.dict [("Error", .str "E"), ("Cause", .str "\x7b\"errorMessage\":\"disk full\"\x7d")])
    "\x7b\"errorMessage\":\"disk full\"\x7d" [("errorMessage", .str "disk full")]
    (.str "disk full") (.str "E") rfl rfl rfl rfl

/-- Auxiliary: the log resolver's result for stream `ls1` when it serves the
`cirruslib.errors.BadFormat` message. -/
theorem get_error_from_batch_ls1 (env : Env)
    (hlog : env.getLogEvents "/aws/batch/job" "ls1"
      = .ok (batchLogsFor "cirruslib.errors.BadFormat: missing header")) :
    get_error_from_batch env (.str "ls1") = ("BadFormat", " missing header") := by
  unfold get_error_from_batch
  simp only [except_bind_ok, hlog]
  rfl

/-- Auxiliary: when the `Cause` parses, lacks `errorMessage`, and carries an
`Attempts` array whose last entry's `StatusReason` contains the container-exit
phrase and names a log stream, the extracted descriptor is exactly the
log-backed resolver's pair. -/
theorem coreExtract_batch_path (env : Env) (error : PyVal) (errorType : PyVal) (causeRaw : String)
    (cause attempts lastA reason container logname : PyVal) (gt gm : String)
    (ht : pyGet error "Error" (.str "unknown") = .ok errorType)
    (hc : pySubsStr error "Cause" = .ok (.str causeRaw))
    (hj : jsonLoads causeRaw = .ok cause)
    (hem : pyInStr "errorMessage" cause = .ok false)
    (hat : pyInStr "Attempts" cause = .ok true)
    (ha : pySubsStr cause "Attempts" = .ok attempts)
    (hl : pyLast attempts = .ok lastA)
    (hr : pySubsStr lastA "StatusReason" = .ok reason)
    (hph : pyInStr containerExitPhrase reason = .ok true)
    (hco : pySubsStr lastA "Container" = .ok container)
    (hlg : pySubsStr container "LogStreamName" = .ok logname)
    (hgb : get_error_from_batch env logname = (gt, gm)) :
    coreExtractError env error = .ok (.str gt, .str gm) := by
  unfold coreExtractError
  simp only [ht, hc, except_bind_ok, jsonLoadsVal_str, hj, hem, Bool.false_eq_true, if_false,
    hat, if_true, ha, hl, hr, hph, hco, hlg, hgb]

/-- Claim C4 as amended: for the Batch `Cause` of `errC4` and a log stream
whose most recent message is `cirruslib.errors.BadFormat: missing header`,
the extracted descriptor is `type = "BadFormat"` and
`message = " missing header"` — everything after the first colon, leading
space included. -/
theorem c4_amended_leading_space (env : Env)
    (hlog : env.getLogEvents "/aws/batch/job" "ls1"
      = .ok (batchLogsFor "cirruslib.errors.BadFormat: missing header")) :
    coreExtractError env errC4 = .ok (.str "BadFormat", .str " missing header") :=
  coreExtract_batch_path env errC4 (.str "States.TaskFailed") causeC4 causeC4Val
    (.list [.dict [("StatusReason", .str "Essential container in task exited - exit code 1"),
                   ("Container", .dict [("LogStreamName", .str "ls1")])]])
    (.dict [("StatusReason", .str "Essential container in task exited - exit code 1"),
            ("Container", .dict [("LogStreamName", .str "ls1")])])
    (.str "Essential container in task exited - exit code 1")
    (.dict [("LogStreamName", .str "ls1")])
    (.str "ls1") "BadFormat" " missing header"
    rfl rfl rfl rfl rfl rfl rfl rfl rfl rfl rfl (get_error_from_batch_ls1 env hlog)

/-- Witness for the amended C4, at the concrete environment `envLog`. -/
theorem c4_amended_leading_space_witness :
    coreExtractError envLog errC4 = .ok (.str "BadFormat", .str " missing header") :=
  c4_amended_leading_space envLog rfl

/-- Auxiliary: whether the Python `in` test raises depends only on the
container's type, so one successful membership test guarantees another on the
same container cannot raise. -/
theorem pyInStr_ok_of_ok (s2 : String) {s1 : String} {v : PyVal} {b : Bool}
    (h : pyInStr s1 v = .ok b) : ∃ b2, pyInStr s2 v = .ok b2 := by
  cases v with
  | dict kvs => exact ⟨_, rfl⟩
  | list xs => exact ⟨_, rfl⟩
  | str t => exact ⟨_, rfl⟩
  | none => exact Except.noConfusion h
  | bool bb => exact Except.noConfusion h
  | num r => exact Except.noConfusion h

/-- Auxiliary: whenever the container-exit enrichment does not fire, the two
entry points' extractions compute identical descriptors. -/
theorem coreExtract_eq_tasks (env : Env) (error : PyVal)
    (hnb : coreBatchFires error = false) :
    coreExtractError env error = tasksExtractError error := by
  unfold coreExtractError tasksExtractError
  unfold coreBatchFires at hnb
  cases ht : pyGet error "Error" (.str "unknown") with
  | error e => simp only [ht, except_bind_error]
  | ok errorType =>
    simp only [ht, except_bind_ok]
    cases hc : pySubsStr error "Cause" with
    | error e => simp only [hc, except_bind_error]
    | ok causeRaw =>
      simp only [hc, except_bind_ok] at hnb ⊢
      cases hj : jsonLoadsVal causeRaw with
      | error e => simp only [hj, except_bind_error]
      | ok cause =>
        simp only [hj, except_bind_ok] at hnb ⊢
        cases hem : pyInStr "errorMessage" cause with
        | error e => simp only [hem, except_bind_error]
        | ok b =>
          simp only [hem, except_bind_ok] at hnb ⊢
          cases b with
          | true => simp only [if_true]
          | false =>
            simp only [Bool.false_eq_true, if_false] at hnb ⊢
            cases hat : pyInStr "Attempts" cause with
            | error e =>
              obtain ⟨b2, hb2⟩ := pyInStr_ok_of_ok "Attempts" hem
              rw [hat] at hb2
              exact Except.noConfusion hb2
            | ok b2 =>
              simp only [hat, except_bind_ok] at hnb ⊢
              cases b2 with
              | false => simp only [Bool.false_eq_true, if_false]
              | true =>
                simp only [if_true] at hnb ⊢
                cases ha : pySubsStr cause "Attempts" with
                | error e => simp only [ha, except_bind_error]
                | ok attempts =>
                  simp only [ha, except_bind_ok] at hnb ⊢
                  cases hl : pyLast attempts with
                  | error e => simp only [hl, except_bind_error]
                  | ok lastA =>
                    simp only [hl, except_bind_ok] at hnb ⊢
                    cases hr : pySubsStr lastA "StatusReason" with
                    | error e => simp only [hr, except_bind_error]
                    | ok reason =>
                      simp only [hr, except_bind_ok] at hnb ⊢
                      cases hph : pyInStr containerExitPhrase reason with
                      | error e => simp only [hph, except_bind_error]
                      | ok b3 =>
                        simp only [hph, except_bind_ok] at hnb ⊢
                        cases b3 with
                        | false => simp only [Bool.false_eq_true, if_false]
                        | true =>
                          simp only [if_true] at hnb ⊢
                          cases hco : pySubsStr lastA "Container" with
                          | error e => simp only [hco, except_bind_error]
                          | ok container =>
                            simp only [hco, except_bind_ok] at hnb ⊢
                            cases hlg : pySubsStr container "LogStreamName" with
                            | error e => simp only [hlg, except_bind_error]
                            | ok logname =>
                              simp only [hlg, except_bind_ok] at hnb
                              exact absurd hnb (by simp)

example : tasksDispatch = coreDispatch := rfl

/-- Claim C3 as amended: the two entry points agree on every direct-error
payload on which the container-exit / log-stream enrichment path does not
fire: the extractions compute the same descriptor, the two handler runs
perform the same sequence of state-store transitions and notifications, and
they raise the same exceptions.  (On payloads where the enrichment fires the
update-state handler consults the Batch logs while the task handler reports
`unknown` — the counterexample.) -/
theorem c3_amended_agree_without_batch (env : Env) (payload catalog errorVal : PyVal) (kvs : List (String × PyVal))
    (hp : payload = .dict kvs)
    (he : dictHas kvs "error" = true)
    (hfp : env.fromPayload payload = .ok catalog)
    (hev : (dictGet kvs "error").getD (.dict []) = errorVal)
    (hnb : coreBatchFires errorVal = false) :
    coreExtractError env errorVal = tasksExtractError errorVal
    ∧ (coreHandler env payload []).2 = (tasksHandler env payload []).2
    ∧ ∀ e : PyErr, ((coreHandler env payload []).1 = .error e ↔ (tasksHandler env payload []).1 = .error e) := by
  subst hp
  have hx := coreExtract_eq_tasks env errorVal hnb
  have hpp : parse_payload env (.dict kvs) = (catalog, .str FAILED, errorVal) := by
    unfold parse_payload
    simp only [pyInStr_dict, he, if_true, except_bind_ok, hfp, pyGet_dict, hev]
  have hrun : ∀ tr0 : List Effect, coreHandler env (.dict kvs) tr0
      = mBind (mBind (mLift (tasksExtractError errorVal))
          (fun d => coreDispatch env catalog d.1 d.2)) (fun _ => pure PyVal.none) tr0 := by
    intro tr0
    unfold coreHandler
    rw [hpp]
    simp only [statusSupported]
    norm_num
    unfold coreWorkflowFailed
    rw [hx]
    rfl
  have htr : ∀ tr0 : List Effect, tasksHandler env (.dict kvs) tr0
      = mBind (mLift (tasksExtractError errorVal))
          (fun d => coreDispatch env catalog d.1 d.2) tr0 := by
    intro tr0
    unfold tasksHandler
    simp only [bind_M, mBind_apply, mLift_apply, hfp, pyGet_dict, hev]
    rfl
  refine ⟨hx, ?_, ?_⟩
  · rw [hrun, htr]
    cases hX : tasksExtractError errorVal with
    | error e => rfl
    | ok d =>
      obtain ⟨t, m⟩ := d
      simp only [mBind_apply, mLift_apply]
      rcases hd : coreDispatch env catalog t m [] with ⟨res, tr⟩
      cases res with
      | ok v => rfl
      | error e => rfl
  · intro e
    rw [hrun, htr]
    cases hX : tasksExtractError errorVal with
    | error e2 => exact Iff.rfl
    | ok d =>
      obtain ⟨t, m⟩ := d
      simp only [mBind_apply, mLift_apply]
      rcases hd : coreDispatch env catalog t m [] with ⟨res, tr⟩
      cases res with
      | ok v =>
        simp only [pure_M]
        constructor
        · intro h
          exact absurd h (by simp)
        · intro h
          exact absurd h (by simp)
      | error e2 => exact Iff.rfl

/-- A direct-error payload whose cause is not structured data, used as the
witness for the amended C3. -/
def errOops : PyVal := .dict [("Error", .str "OopsError"), ("Cause", .str "plain text")]

/-- Witness payload for the amended C3. -/
def payload3w : PyVal := .dict [("id", .str "item1"), ("error", errOops)]

/-- Witness for the amended C3: on a concrete non-enrichment payload the two
handlers perform identical effect traces. -/
theorem c3_amended_agree_without_batch_witness :
    (coreHandler envOk payload3w []).2 = (tasksHandler envOk payload3w []).2 :=
  (c3_amended_agree_without_batch envOk payload3w payload3w errOops
    [("id", .str "item1"), ("error", errOops)] rfl rfl rfl rfl rfl).2.1
